import Mathlib

/-!
Shallow embedding of `src/backup.py` from webfront/foldersync.

The module under verification has three functions:
* `build_robocopy_command` — a pure function from a task descriptor and a
  shared option mapping to the robocopy argument list;
* `run_backup_task` — validates the source path, ensures the destination
  exists, builds the command, runs the external tool and classifies its
  exit status;
* `run_all_backups` — folds `run_backup_task` over the configured task
  list and aggregates a process exit code.

Filesystem and subprocess effects are embedded through an explicit
environment (`Env`) that is threaded through the execution functions;
every observable effect of a task run (commands spawned, directory
creations attempted, error log emissions) is recorded in `TaskOutcome`.
-/

namespace FolderSync

/-- Task descriptor, the per-task entries of the `backup_tasks` list.
Fields mirror the keys read by `backup.py`: `name`, `backup_type` and
`exclude` are read with `dict.get` and a default, so they are `Option`s
here; `source` and `destination` are modelled as present strings, the
well-formed input assumed by the spec's data model (a task must carry a
source path and a destination path). -/
structure Task where
  name : Option String
  source : String
  destination : String
  backup_type : Option String
  exclude : Option (List String)

/-- Shared tool options, the `robocopy_options` mapping. Both keys are
read with `dict.get` and numeric defaults, so both are `Option Nat`
(the spec declares them non-negative integers). -/
structure RobocopyOptions where
  retry_count : Option Nat
  wait_time : Option Nat

/-- Top-level configuration mapping as consumed by `run_all_backups`:
both keys are read with `dict.get` and a default, so they are `Option`s. -/
structure Config where
  backup_tasks : Option (List Task)
  robocopy_options : Option RobocopyOptions

/-- The exclusion heuristic of `build_robocopy_command`: an item is
treated as a file pattern when it starts with `*` or contains a dot
(`item.startswith("*") or "." in item`). -/
def isFilePattern (item : String) : Bool :=
  item.startsWith "*" || item.contains '.'

/-- One iteration of the exclusion loop: a file pattern is appended to
the file bucket (second component), anything else to the directory
bucket (first component). -/
def classifyStep (acc : List String × List String) (item : String) :
    List String × List String :=
  if isFilePattern item then (acc.1, acc.2 ++ [item])
  else (acc.1 ++ [item], acc.2)

/-- The exclusion loop of `build_robocopy_command`: starting from two
empty buckets, classify the items of `exclude` in order. Returns
(`excluded_dirs`, `excluded_files`). -/
def classifyExcludes (exclude : List String) : List String × List String :=
  exclude.foldl classifyStep ([], [])

/-- The backup-type branch of `build_robocopy_command`: `"full"` appends
the mirror flag, `"incremental"` the recursive-copy flag, anything else
appends nothing. -/
def modeFlag (backup_type : String) : List String :=
  if backup_type = "full" then ["/MIR"]
  else if backup_type = "incremental" then ["/E"]
  else []

/-- Embedding of `build_robocopy_command(task, robocopy_options)`:
tool name, source, destination, a mode flag depending on `backup_type`
(default `"full"`), the fixed flag block, the retry and wait flags with
defaults 3 and 5, then the `/XD` and `/XF` exclusion blocks, each
omitted when its bucket is empty. -/
def build_robocopy_command (task : Task) (robocopy_options : RobocopyOptions) :
    List String :=
  let source := task.source
  let destination := task.destination
  let backup_type := task.backup_type.getD "full"
  let exclude := task.exclude.getD []
  let retry_count := robocopy_options.retry_count.getD 3
  let wait_time := robocopy_options.wait_time.getD 5
  let cmd := ["robocopy", source, destination]
  let cmd := cmd ++ modeFlag backup_type
  let cmd := cmd ++ ["/Z", "/TS", "/NP", "/NDL", "/NFL"]
  let cmd := cmd ++ ["/R:" ++ toString retry_count, "/W:" ++ toString wait_time]
  let buckets := classifyExcludes exclude
  let excluded_dirs := buckets.1
  let excluded_files := buckets.2
  let cmd := cmd ++ (if excluded_dirs.isEmpty then [] else "/XD" :: excluded_dirs)
  let cmd := cmd ++ (if excluded_files.isEmpty then [] else "/XF" :: excluded_files)
  cmd

/-- The exclusion loop is an order-preserving partition: folding
`classifyStep` over a list appends, to each starting bucket, the items
failing (resp. satisfying) the file-pattern heuristic, in input order. -/
lemma foldl_classifyStep (l : List String) (dirs files : List String) :
    l.foldl classifyStep (dirs, files) =
      (dirs ++ l.filter (fun item => !(isFilePattern item)),
       files ++ l.filter (fun item => isFilePattern item)) := by
  induction l generalizing dirs files with
  | nil => simp
  | cons head tail ih =>
      simp only [List.foldl_cons, classifyStep]
      by_cases h : isFilePattern head = true
      · rw [if_pos h, ih]
        simp [List.filter_cons, h]
      · rw [if_neg h, ih]
        simp [List.filter_cons, h, Bool.not_eq_true _ ▸ h]

/-- Closed form of the exclusion buckets: directories are the items the
heuristic rejects, files the items it accepts, both in input order. -/
lemma classifyExcludes_eq (l : List String) :
    classifyExcludes l =
      (l.filter (fun item => !(isFilePattern item)),
       l.filter (fun item => isFilePattern item)) := by
  simpa [classifyExcludes] using foldl_classifyStep l [] []

/-- Closed form of the whole built command. -/
lemma build_robocopy_command_eq (task : Task)
    (robocopy_options : RobocopyOptions) :
    build_robocopy_command task robocopy_options =
      ["robocopy", task.source, task.destination]
        ++ modeFlag (task.backup_type.getD "full")
        ++ ["/Z", "/TS", "/NP", "/NDL", "/NFL",
            "/R:" ++ toString (robocopy_options.retry_count.getD 3),
            "/W:" ++ toString (robocopy_options.wait_time.getD 5)]
        ++ (if ((task.exclude.getD []).filter
              (fun item => !(isFilePattern item))).isEmpty then []
            else "/XD" :: (task.exclude.getD []).filter
              (fun item => !(isFilePattern item)))
        ++ (if ((task.exclude.getD []).filter
              (fun item => isFilePattern item)).isEmpty then []
            else "/XF" :: (task.exclude.getD []).filter
              (fun item => isFilePattern item)) := by
  simp [build_robocopy_command, classifyExcludes_eq]

/-- Execution environment, abstracting the effects `run_backup_task`
performs: `pathExists p` embeds `os.path.exists(p)`; `makedirsOk p` says
whether `os.makedirs(p)` succeeds or raises `OSError`; `runResult cmd`
embeds `subprocess.run(cmd, ...)`, returning either the tool's integer
exit status or an exception message (the unexpected execution fault the
bare `except` catches). -/
structure Env where
  pathExists : String → Bool
  makedirsOk : String → Bool
  runResult : List String → Except String Int

/-- Environment after a successful `os.makedirs(path)`: `path` now
exists; nothing else about the environment changes. -/
def mkdirEnv (env : Env) (path : String) : Env :=
  { env with pathExists := fun p => if p = path then true else env.pathExists p }

/-- Observable outcome of one `run_backup_task` call: the returned
boolean, the environment after the call, the commands handed to the
subprocess layer (in order), the paths handed to `os.makedirs`, and
whether any `logger.error` line was emitted. -/
structure TaskOutcome where
  success : Bool
  env : Env
  spawned : List (List String)
  mkdirCalls : List String
  loggedError : Bool

/-- The subprocess stage of `run_backup_task` (its final `try` block):
build the command, run it; an execution exception is caught and yields
failure, an exit status is classified by the threshold 8
(`return_code >= 8` fails, anything below succeeds). -/
def execPhase (env : Env) (task : Task) (robocopy_options : RobocopyOptions)
    (mkdirCalls : List String) : TaskOutcome :=
  let cmd := build_robocopy_command task robocopy_options
  match env.runResult cmd with
  | Except.error _ =>
      { success := false, env := env, spawned := [cmd],
        mkdirCalls := mkdirCalls, loggedError := true }
  | Except.ok return_code =>
      if return_code ≥ 8 then
        { success := false, env := env, spawned := [cmd],
          mkdirCalls := mkdirCalls, loggedError := true }
      else
        { success := true, env := env, spawned := [cmd],
          mkdirCalls := mkdirCalls, loggedError := false }

/-- Embedding of `run_backup_task(task, robocopy_options)`: fail with an
error log and no subprocess when the source does not exist; create the
destination when missing, failing with an error log (and no subprocess)
when creation raises; otherwise run the subprocess stage. -/
def run_backup_task (env : Env) (task : Task)
    (robocopy_options : RobocopyOptions) : TaskOutcome :=
  if !env.pathExists task.source then
    { success := false, env := env, spawned := [],
      mkdirCalls := [], loggedError := true }
  else if !env.pathExists task.destination then
    if env.makedirsOk task.destination then
      execPhase (mkdirEnv env task.destination) task robocopy_options
        [task.destination]
    else
      { success := false, env := env, spawned := [],
        mkdirCalls := [task.destination], loggedError := true }
  else
    execPhase env task robocopy_options []

/-- The task loop of `run_all_backups`: run each task in order,
threading the environment, and count the failures. Returns the failure
count and the final environment. -/
def run_tasks (env : Env) (robocopy_options : RobocopyOptions) :
    List Task → Nat × Env
  | [] => (0, env)
  | task :: rest =>
      let outcome := run_backup_task env task robocopy_options
      let next := run_tasks outcome.env robocopy_options rest
      ((if outcome.success then 0 else 1) + next.1, next.2)

/-- The per-task boolean results of the same sequential run, in task
order (used to state aggregate properties of `run_all_backups`). -/
def taskResults (env : Env) (robocopy_options : RobocopyOptions) :
    List Task → List Bool
  | [] => []
  | task :: rest =>
      let outcome := run_backup_task env task robocopy_options
      outcome.success :: taskResults outcome.env robocopy_options rest

/-- Embedding of `run_all_backups(config)`: extract the task list and
option mapping (defaults: empty list, empty mapping), run every task,
and return exit code 0 when no task failed, 1 otherwise. -/
def run_all_backups (env : Env) (config : Config) : Int × Env :=
  let tasks := config.backup_tasks.getD []
  let robocopy_options := config.robocopy_options.getD
    { retry_count := none, wait_time := none }
  let result := run_tasks env robocopy_options tasks
  (if result.1 = 0 then 0 else 1, result.2)

/-- The subprocess stage leaves the embedded filesystem unchanged. -/
lemma execPhase_env (env : Env) (task : Task)
    (robocopy_options : RobocopyOptions) (mkdirCalls : List String) :
    (execPhase env task robocopy_options mkdirCalls).env = env := by
  cases h : env.runResult (build_robocopy_command task robocopy_options) with
  | error e => simp [execPhase, h]
  | ok c => by_cases hc : c ≥ 8 <;> simp [execPhase, h, hc]

/-- When source and destination both exist, `run_backup_task` goes
straight to the subprocess stage with no makedirs call. -/
lemma run_backup_task_of_ready (env : Env) (task : Task)
    (robocopy_options : RobocopyOptions)
    (hsrc : env.pathExists task.source = true)
    (hdst : env.pathExists task.destination = true) :
    run_backup_task env task robocopy_options =
      execPhase env task robocopy_options [] := by
  simp [run_backup_task, hsrc, hdst]

/-- When the source exists, the destination does not, and creation
succeeds, `run_backup_task` runs the subprocess stage in the updated
environment and records the makedirs call. -/
lemma run_backup_task_of_mkdir (env : Env) (task : Task)
    (robocopy_options : RobocopyOptions)
    (hsrc : env.pathExists task.source = true)
    (hdst : env.pathExists task.destination = false)
    (hmk : env.makedirsOk task.destination = true) :
    run_backup_task env task robocopy_options =
      execPhase (mkdirEnv env task.destination) task robocopy_options
        [task.destination] := by
  simp [run_backup_task, hsrc, hdst, hmk]

/-- Classification of the subprocess stage: when the tool exits with
status `s`, the stage succeeds exactly when `s < 8`. -/
lemma execPhase_ok (env : Env) (task : Task)
    (robocopy_options : RobocopyOptions) (mkdirCalls : List String) (s : Int)
    (h : env.runResult (build_robocopy_command task robocopy_options) =
      Except.ok s) :
    ((execPhase env task robocopy_options mkdirCalls).success = true ↔ s < 8) := by
  by_cases hs : s ≥ 8
  · simp [execPhase, h, hs]
  · simp [execPhase, h, hs]
    omega

/-- When the subprocess raises, the stage fails and logs an error. -/
lemma execPhase_error (env : Env) (task : Task)
    (robocopy_options : RobocopyOptions) (mkdirCalls : List String)
    (msg : String)
    (h : env.runResult (build_robocopy_command task robocopy_options) =
      Except.error msg) :
    (execPhase env task robocopy_options mkdirCalls).success = false ∧
      (execPhase env task robocopy_options mkdirCalls).loggedError = true := by
  simp [execPhase, h]

/-- Empty option mapping, as supplied when `robocopy_options` is absent. -/
def sampleOptions : RobocopyOptions := { retry_count := none, wait_time := none }

/-- Concrete well-formed task used to instantiate the theorems. -/
def sampleTask : Task :=
  { name := some "documents", source := "srcA", destination := "dstA",
    backup_type := some "full", exclude := none }

/-- Concrete task with no `backup_type` key. -/
def noTypeTask : Task :=
  { name := none, source := "srcA", destination := "dstA",
    backup_type := none, exclude := none }

/-- Environment where every path exists, directory creation succeeds and
the tool exits with status `code`. -/
def envRun (code : Int) : Env :=
  { pathExists := fun _ => true, makedirsOk := fun _ => true,
    runResult := fun _ => Except.ok code }

/-- Environment where no path exists. -/
def envMissingSource : Env :=
  { pathExists := fun _ => false, makedirsOk := fun _ => true,
    runResult := fun _ => Except.ok 0 }

/-- Environment where only the path `srcA` exists; directory creation
succeeds or fails according to `ok`, and the tool exits with `code`. -/
def envOnlySource (ok : Bool) (code : Int) : Env :=
  { pathExists := fun p => p == "srcA", makedirsOk := fun _ => ok,
    runResult := fun _ => Except.ok code }

/-- Environment where every path exists but spawning the tool raises. -/
def envSpawnFail : Env :=
  { pathExists := fun _ => true, makedirsOk := fun _ => true,
    runResult := fun _ => Except.error "robocopy executable missing" }

/-- Claim C1: a task run that reaches the subprocess step succeeds
exactly when the tool's exit status is below 8, so in particular the
boundary status 7 succeeds and 8 fails. -/
theorem run_backup_task_exit_classification (env : Env) (task : Task)
    (robocopy_options : RobocopyOptions) (s : Int)
    (hsrc : env.pathExists task.source = true)
    (hdst : env.pathExists task.destination = true ∨
      env.makedirsOk task.destination = true)
    (hrun : env.runResult (build_robocopy_command task robocopy_options) =
      Except.ok s) :
    ((run_backup_task env task robocopy_options).success = true ↔ s < 8) := by
  by_cases hd : env.pathExists task.destination = true
  · rw [run_backup_task_of_ready env task robocopy_options hsrc hd]
    exact execPhase_ok env task robocopy_options [] s hrun
  · have hd2 : env.pathExists task.destination = false := by
      cases hb : env.pathExists task.destination
      · rfl
      · exact absurd hb hd
    have hmk : env.makedirsOk task.destination = true := hdst.resolve_left hd
    rw [run_backup_task_of_mkdir env task robocopy_options hsrc hd2 hmk]
    exact execPhase_ok (mkdirEnv env task.destination) task robocopy_options
      [task.destination] s hrun

/-- Witness for C1 at the boundary status 7 in a concrete environment. -/
theorem run_backup_task_exit_classification_witness :
    (envRun 7).pathExists sampleTask.source = true ∧
      ((run_backup_task (envRun 7) sampleTask sampleOptions).success = true ↔
        (7 : Int) < 8) :=
  ⟨rfl, run_backup_task_exit_classification (envRun 7) sampleTask sampleOptions 7
    rfl (Or.inl rfl) rfl⟩

/-- Failure count of the task loop is zero exactly when every per-task
result in the sequential run is `true`. -/
lemma run_tasks_fst_eq_zero_iff (robocopy_options : RobocopyOptions)
    (tasks : List Task) (env : Env) :
    ((run_tasks env robocopy_options tasks).1 = 0 ↔
      (taskResults env robocopy_options tasks).all (fun b => b) = true) := by
  induction tasks generalizing env with
  | nil => simp [run_tasks, taskResults]
  | cons task rest ih =>
      simp only [run_tasks, taskResults, List.all_cons, Bool.and_eq_true]
      cases hs : (run_backup_task env task robocopy_options).success
      · simp [hs]
      · simp [hs, ih]

/-- Claim C2: the batch exit code is 0 exactly when every task in the
run reports success and 1 exactly otherwise; an absent or empty task
list yields exit code 0. -/
theorem run_all_backups_aggregate (env : Env) (config : Config) :
    (((run_all_backups env config).1 = 0 ↔
        (taskResults env
          (config.robocopy_options.getD { retry_count := none, wait_time := none })
          (config.backup_tasks.getD [])).all (fun b => b) = true) ∧
      ((run_all_backups env config).1 = 1 ↔
        ¬ (taskResults env
          (config.robocopy_options.getD { retry_count := none, wait_time := none })
          (config.backup_tasks.getD [])).all (fun b => b) = true) ∧
      (run_all_backups env { config with backup_tasks := none }).1 = 0 ∧
      (run_all_backups env { config with backup_tasks := some [] }).1 = 0) := by
  refine ⟨?_, ?_, ?_, ?_⟩
  · rw [← run_tasks_fst_eq_zero_iff
      (config.robocopy_options.getD { retry_count := none, wait_time := none })
      (config.backup_tasks.getD []) env]
    simp only [run_all_backups]
    by_cases hn : (run_tasks env
        (config.robocopy_options.getD { retry_count := none, wait_time := none })
        (config.backup_tasks.getD [])).1 = 0 <;> simp [hn]
  · rw [← run_tasks_fst_eq_zero_iff
      (config.robocopy_options.getD { retry_count := none, wait_time := none })
      (config.backup_tasks.getD []) env]
    simp only [run_all_backups]
    by_cases hn : (run_tasks env
        (config.robocopy_options.getD { retry_count := none, wait_time := none })
        (config.backup_tasks.getD [])).1 = 0 <;> simp [hn]
  · simp [run_all_backups, run_tasks]
  · simp [run_all_backups, run_tasks]

/-- Claim C3: a task whose source path does not exist fails, logs an
error and never spawns the external tool. -/
theorem missing_source_no_spawn (env : Env) (task : Task)
    (robocopy_options : RobocopyOptions)
    (hsrc : env.pathExists task.source = false) :
    (run_backup_task env task robocopy_options).success = false ∧
      (run_backup_task env task robocopy_options).loggedError = true ∧
      (run_backup_task env task robocopy_options).spawned = [] := by
  simp [run_backup_task, hsrc]

/-- Witness for C3 in a concrete environment without the source path. -/
theorem missing_source_no_spawn_witness :
    envMissingSource.pathExists sampleTask.source = false ∧
      ((run_backup_task envMissingSource sampleTask sampleOptions).success = false ∧
        (run_backup_task envMissingSource sampleTask sampleOptions).loggedError = true ∧
        (run_backup_task envMissingSource sampleTask sampleOptions).spawned = []) :=
  ⟨rfl, missing_source_no_spawn envMissingSource sampleTask sampleOptions rfl⟩

/-- Claim C4: the exclusion list is partitioned per item in original
order — an item starting with `*` or containing a dot goes to the file
bucket, every other item to the directory bucket — and the command ends
with the `/XD` block then the `/XF` block, each flag followed by its
bucket in original relative order and omitted when the bucket is empty. -/
theorem exclusion_partition (task : Task) (robocopy_options : RobocopyOptions) :
    (∀ item, isFilePattern item =
      (item.startsWith "*" || item.contains '.')) ∧
    build_robocopy_command task robocopy_options =
      ["robocopy", task.source, task.destination]
        ++ modeFlag (task.backup_type.getD "full")
        ++ ["/Z", "/TS", "/NP", "/NDL", "/NFL",
            "/R:" ++ toString (robocopy_options.retry_count.getD 3),
            "/W:" ++ toString (robocopy_options.wait_time.getD 5)]
        ++ (if ((task.exclude.getD []).filter
              (fun item => !(isFilePattern item))).isEmpty then []
            else "/XD" :: (task.exclude.getD []).filter
              (fun item => !(isFilePattern item)))
        ++ (if ((task.exclude.getD []).filter
              (fun item => isFilePattern item)).isEmpty then []
            else "/XF" :: (task.exclude.getD []).filter
              (fun item => isFilePattern item)) :=
  ⟨fun _ => rfl, build_robocopy_command_eq task robocopy_options⟩

/-- Counterexample to claim C5: a task with no `backup_type` key still
gets the mirror flag, because the code defaults an absent `backup_type`
to `"full"`; the claim as stated says an absent `backup_type` appends
neither mode flag. -/
theorem absent_backup_type_gets_mirror_flag :
    noTypeTask.backup_type = none ∧
      "/MIR" ∈ build_robocopy_command noTypeTask sampleOptions :=
  ⟨rfl, by decide⟩

/-- Amended claim C5: the first three arguments are the tool name, the
source and the destination; writing `bt` for the task's `backup_type`
defaulted to `"full"` when absent, the mode-flag segment that follows is
`["/MIR"]` exactly when `bt = "full"`, `["/E"]` exactly when
`bt = "incremental"`, and empty exactly otherwise; it never holds more
than one flag. -/
theorem mode_flag_characterization (task : Task)
    (robocopy_options : RobocopyOptions) :
    ((build_robocopy_command task robocopy_options).take 3 =
        ["robocopy", task.source, task.destination]) ∧
      (∃ rest, build_robocopy_command task robocopy_options =
        ["robocopy", task.source, task.destination]
          ++ modeFlag (task.backup_type.getD "full") ++ rest) ∧
      (modeFlag (task.backup_type.getD "full") = ["/MIR"] ↔
        task.backup_type.getD "full" = "full") ∧
      (modeFlag (task.backup_type.getD "full") = ["/E"] ↔
        task.backup_type.getD "full" = "incremental") ∧
      (modeFlag (task.backup_type.getD "full") = [] ↔
        (task.backup_type.getD "full" ≠ "full" ∧
          task.backup_type.getD "full" ≠ "incremental")) ∧
      (modeFlag (task.backup_type.getD "full")).length ≤ 1 := by
  refine ⟨?_, ?_, ?_, ?_, ?_, ?_⟩
  · rw [build_robocopy_command_eq]
    rfl
  · refine ⟨["/Z", "/TS", "/NP", "/NDL", "/NFL",
        "/R:" ++ toString (robocopy_options.retry_count.getD 3),
        "/W:" ++ toString (robocopy_options.wait_time.getD 5)]
      ++ (if ((task.exclude.getD []).filter
            (fun item => !(isFilePattern item))).isEmpty then []
          else "/XD" :: (task.exclude.getD []).filter
            (fun item => !(isFilePattern item)))
      ++ (if ((task.exclude.getD []).filter
            (fun item => isFilePattern item)).isEmpty then []
          else "/XF" :: (task.exclude.getD []).filter
            (fun item => isFilePattern item)), ?_⟩
    rw [build_robocopy_command_eq]
    simp [List.append_assoc]
  · by_cases h1 : task.backup_type.getD "full" = "full" <;>
      by_cases h2 : task.backup_type.getD "full" = "incremental" <;>
      simp [modeFlag, h1, h2]
  · by_cases h1 : task.backup_type.getD "full" = "full" <;>
      by_cases h2 : task.backup_type.getD "full" = "incremental" <;>
      simp [modeFlag, h1, h2]
  · by_cases h1 : task.backup_type.getD "full" = "full" <;>
      by_cases h2 : task.backup_type.getD "full" = "incremental" <;>
      simp [modeFlag, h1, h2]
  · by_cases h1 : task.backup_type.getD "full" = "full" <;>
      by_cases h2 : task.backup_type.getD "full" = "incremental" <;>
      simp [modeFlag, h1, h2]

/-- Claim C6: the command always carries the retry flag and the wait
flag, adjacent and in that order, holding exactly the configured
`retry_count` and `wait_time`; with both options absent the emitted
flags are the literal defaults `/R:3` and `/W:5`. -/
theorem retry_wait_flags (task : Task) (robocopy_options : RobocopyOptions) :
    (∃ front back, build_robocopy_command task robocopy_options =
        front ++ ["/R:" ++ toString (robocopy_options.retry_count.getD 3),
          "/W:" ++ toString (robocopy_options.wait_time.getD 5)] ++ back) ∧
      (∃ front back,
        build_robocopy_command task { retry_count := none, wait_time := none } =
          front ++ ["/R:3", "/W:5"] ++ back) := by
  constructor
  · refine ⟨["robocopy", task.source, task.destination]
        ++ modeFlag (task.backup_type.getD "full")
        ++ ["/Z", "/TS", "/NP", "/NDL", "/NFL"],
      (if ((task.exclude.getD []).filter
            (fun item => !(isFilePattern item))).isEmpty then []
          else "/XD" :: (task.exclude.getD []).filter
            (fun item => !(isFilePattern item)))
        ++ (if ((task.exclude.getD []).filter
            (fun item => isFilePattern item)).isEmpty then []
          else "/XF" :: (task.exclude.getD []).filter
            (fun item => isFilePattern item)), ?_⟩
    rw [build_robocopy_command_eq]
    simp [List.append_assoc]
  · refine ⟨["robocopy", task.source, task.destination]
        ++ modeFlag (task.backup_type.getD "full")
        ++ ["/Z", "/TS", "/NP", "/NDL", "/NFL"],
      (if ((task.exclude.getD []).filter
            (fun item => !(isFilePattern item))).isEmpty then []
          else "/XD" :: (task.exclude.getD []).filter
            (fun item => !(isFilePattern item)))
        ++ (if ((task.exclude.getD []).filter
            (fun item => isFilePattern item)).isEmpty then []
          else "/XF" :: (task.exclude.getD []).filter
            (fun item => isFilePattern item)), ?_⟩
    have hr : "/R:" ++ toString ((none : Option Nat).getD 3) = "/R:3" := rfl
    have hw : "/W:" ++ toString ((none : Option Nat).getD 5) = "/W:5" := rfl
    rw [build_robocopy_command_eq, ← hr, ← hw]
    simp [List.append_assoc]

/-- Claim C7: when the source exists but the destination does not and
creating it fails, the task attempts exactly one directory creation (of
the destination), fails, logs an error, and never spawns the tool. -/
theorem destination_creation_failure (env : Env) (task : Task)
    (robocopy_options : RobocopyOptions)
    (hsrc : env.pathExists task.source = true)
    (hdst : env.pathExists task.destination = false)
    (hmk : env.makedirsOk task.destination = false) :
    (run_backup_task env task robocopy_options).mkdirCalls = [task.destination] ∧
      (run_backup_task env task robocopy_options).success = false ∧
      (run_backup_task env task robocopy_options).loggedError = true ∧
      (run_backup_task env task robocopy_options).spawned = [] := by
  simp [run_backup_task, hsrc, hdst, hmk]

/-- Witness for C7: only the source exists and creation fails. -/
theorem destination_creation_failure_witness :
    (envOnlySource false 0).pathExists sampleTask.source = true ∧
      ((run_backup_task (envOnlySource false 0) sampleTask sampleOptions).mkdirCalls =
          [sampleTask.destination] ∧
        (run_backup_task (envOnlySource false 0) sampleTask sampleOptions).success = false ∧
        (run_backup_task (envOnlySource false 0) sampleTask sampleOptions).loggedError = true ∧
        (run_backup_task (envOnlySource false 0) sampleTask sampleOptions).spawned = []) :=
  ⟨rfl, destination_creation_failure (envOnlySource false 0) sampleTask
    sampleOptions rfl rfl rfl⟩

/-- Claim C8: an execution error raised while running the tool is caught
and converted into a logged failure; the embedded `run_backup_task` is a
total function into `TaskOutcome`, so the batch layer only ever observes
a boolean outcome. -/
theorem execution_error_returns_failure (env : Env) (task : Task)
    (robocopy_options : RobocopyOptions) (msg : String)
    (hsrc : env.pathExists task.source = true)
    (hdst : env.pathExists task.destination = true ∨
      env.makedirsOk task.destination = true)
    (hrun : env.runResult (build_robocopy_command task robocopy_options) =
      Except.error msg) :
    (run_backup_task env task robocopy_options).success = false ∧
      (run_backup_task env task robocopy_options).loggedError = true := by
  by_cases hd : env.pathExists task.destination = true
  · rw [run_backup_task_of_ready env task robocopy_options hsrc hd]
    exact execPhase_error env task robocopy_options [] msg hrun
  · have hd2 : env.pathExists task.destination = false := by
      cases hb : env.pathExists task.destination
      · rfl
      · exact absurd hb hd
    have hmk : env.makedirsOk task.destination = true := hdst.resolve_left hd
    rw [run_backup_task_of_mkdir env task robocopy_options hsrc hd2 hmk]
    exact execPhase_error (mkdirEnv env task.destination) task robocopy_options
      [task.destination] msg hrun

/-- Witness for C8 in a concrete environment whose spawn raises. -/
theorem execution_error_returns_failure_witness :
    envSpawnFail.pathExists sampleTask.source = true ∧
      ((run_backup_task envSpawnFail sampleTask sampleOptions).success = false ∧
        (run_backup_task envSpawnFail sampleTask sampleOptions).loggedError = true) :=
  ⟨rfl, execution_error_returns_failure envSpawnFail sampleTask sampleOptions
    "robocopy executable missing" rfl (Or.inl rfl) rfl⟩

/-- Claim C9: when the destination was missing and its creation
succeeded, the destination still exists in the environment returned by
`run_backup_task`, whatever the run result (the theorem holds for every
`runResult`, so in particular for failing exit statuses and for
execution errors): a failing task does not roll the creation back. -/
theorem created_destination_persists (env : Env) (task : Task)
    (robocopy_options : RobocopyOptions)
    (hsrc : env.pathExists task.source = true)
    (hdst : env.pathExists task.destination = false)
    (hmk : env.makedirsOk task.destination = true) :
    (run_backup_task env task robocopy_options).env.pathExists
      task.destination = true := by
  rw [run_backup_task_of_mkdir env task robocopy_options hsrc hdst hmk,
    execPhase_env]
  simp [mkdirEnv]

/-- Witness for C9: the tool exits 8 (task fails) yet the created
destination still exists afterwards. -/
theorem created_destination_persists_witness :
    (run_backup_task (envOnlySource true 8) sampleTask sampleOptions).success = false ∧
      (run_backup_task (envOnlySource true 8) sampleTask
        sampleOptions).env.pathExists sampleTask.destination = true :=
  ⟨by decide, created_destination_persists (envOnlySource true 8) sampleTask
    sampleOptions rfl rfl rfl⟩

/-- Claim C10: a configuration without the `robocopy_options` key yields
the empty option mapping for every task, and the command built with it
carries the default flags `/R:3` and `/W:5`. -/
theorem absent_options_default_flags (config : Config) (task : Task)
    (h : config.robocopy_options = none) :
    (config.robocopy_options.getD { retry_count := none, wait_time := none } =
        { retry_count := none, wait_time := none }) ∧
      "/R:3" ∈ build_robocopy_command task
        (config.robocopy_options.getD { retry_count := none, wait_time := none }) ∧
      "/W:5" ∈ build_robocopy_command task
        (config.robocopy_options.getD { retry_count := none, wait_time := none }) := by
  rw [h]
  refine ⟨rfl, ?_, ?_⟩
  · rw [build_robocopy_command_eq]
    exact List.mem_append_left _ (List.mem_append_left _
      (List.mem_append_right _ (by decide)))
  · rw [build_robocopy_command_eq]
    exact List.mem_append_left _ (List.mem_append_left _
      (List.mem_append_right _ (by decide)))

/-- Witness for C10 at a concrete configuration lacking the key. -/
theorem absent_options_default_flags_witness :
    ((Config.mk (some [sampleTask]) none).robocopy_options.getD
        { retry_count := none, wait_time := none } =
        { retry_count := none, wait_time := none }) ∧
      "/R:3" ∈ build_robocopy_command sampleTask
        ((Config.mk (some [sampleTask]) none).robocopy_options.getD
          { retry_count := none, wait_time := none }) ∧
      "/W:5" ∈ build_robocopy_command sampleTask
        ((Config.mk (some [sampleTask]) none).robocopy_options.getD
          { retry_count := none, wait_time := none }) :=
  absent_options_default_flags (Config.mk (some [sampleTask]) none) sampleTask rfl

end FolderSync
